import Mathlib

/-!
Verification of the dialogue-dispatch core of the teloxide repository
(`src/dispatching/dialogue/mod.rs` and the components it declares).

The module file `mod.rs` documents the dispatch pipeline:
step 1 supplies `D::default()` to the handler when the storage holds no
dialogue for the chat, otherwise the saved dialogue; step 2 removes the
dialogue on `DialogueStage::Exit` and updates it on `DialogueStage::Next`.
The concrete `DialogueDispatcher`, `Storage` and `DialogueStage`
implementations live in submodules not present here, so they are modelled
from the specification; `TransitionOut` and the `up!` macro are taken
directly from `mod.rs`.
-/

namespace Teloxide

/-- `RequestError`: the error of a Telegram request, the error component of
`ResponseResult`.  Modelled from the spec: the concrete error type lives in
`crate::requests`, outside the dialogue module; only its existence matters
here, so it is a single abstract constructor. -/
inductive RequestError : Type
  | apiError : RequestError
deriving DecidableEq, Repr

/-- Equality on `Except` values is decidable when it is on both
components. -/
def Except.decEq {ε α : Type} [DecidableEq ε] [DecidableEq α] :
    (a b : Except ε α) → Decidable (a = b)
  | Except.error e1, Except.error e2 =>
    if h : e1 = e2 then Decidable.isTrue (by rw [h])
    else Decidable.isFalse (by intro hc; injection hc; contradiction)
  | Except.error _, Except.ok _ => Decidable.isFalse (by intro hc; cases hc)
  | Except.ok _, Except.error _ => Decidable.isFalse (by intro hc; cases hc)
  | Except.ok a1, Except.ok a2 =>
    if h : a1 = a2 then Decidable.isTrue (by rw [h])
    else Decidable.isFalse (by intro hc; injection hc; contradiction)

instance {ε α : Type} [DecidableEq ε] [DecidableEq α] :
    DecidableEq (Except ε α) := Except.decEq

/-- `ResponseResult<T> = Result<T, RequestError>` from `crate::requests`,
imported by `mod.rs` line 53 and used in `TransitionOut` (line 120);
a transparent type alias, hence an abbreviation. -/
abbrev ResponseResult (T : Type) : Type := Except RequestError T

/-- `DialogueStage<D>`: the handler's verdict (module component 3 of
`mod.rs`).  Modelled from the spec: a two-variant sum type, `Next(D)`
(conversation continues with a new state) or `Exit` (conversation ends,
stored state is deleted). -/
inductive DialogueStage (D : Type) : Type
  | Next (new_state : D) : DialogueStage D
  | Exit : DialogueStage D
deriving DecidableEq, Repr

/-- A FSM transition function's output, from `mod.rs` line 120:
`pub type TransitionOut<D> = ResponseResult<DialogueStage<D>>;`. -/
abbrev TransitionOut (D : Type) : Type := ResponseResult (DialogueStage D)

/-- `StorageError`: failure of the storage backend (unreachable backend,
deserialization failure).  Modelled from the spec: a single abstract
constructor suffices, only propagation is specified. -/
inductive StorageError : Type
  | backend : StorageError
deriving DecidableEq, Repr

/-- Conversation identifiers are opaque hashable values extracted from an
event (a chat id); modelled as natural numbers. -/
abbrev ConversationId : Type := Nat

/-- The inbound event, opaque except for conversation-id extraction.
Modelled from the spec: `ConversationId` extraction may fail (not every
event belongs to a conversation), so an event carries an optional chat id. -/
structure Event : Type where
  chat_id : Option ConversationId

/-- `Storage<D>`: the persistent map from conversation id to dialogue
state, together with backend-failure switches.  Modelled from the spec:
the three operations `get_dialogue`, `update_dialogue`, `remove_dialogue`
may each fail with a `StorageError`; the switches let the model force a
backend failure on a chosen operation. -/
structure Storage (D : Type) : Type where
  entries : ConversationId → Option D
  failGet : Bool
  failUpdate : Bool
  failRemove : Bool

/-- The storage with no entries and a healthy backend. -/
def Storage.empty (D : Type) : Storage D :=
  { entries := fun _ => none, failGet := false, failUpdate := false,
    failRemove := false }

/-- `get_dialogue(id) -> Option<D>`: the stored state, or absent if none
exists; may fail with a `StorageError`.  Modelled from the spec. -/
def get_dialogue {D : Type} (s : Storage D) (id : ConversationId) :
    Except StorageError (Option D) :=
  if s.failGet then Except.error StorageError.backend
  else Except.ok (s.entries id)

/-- `update_dialogue(id, D) -> Result<(), StorageError>`: inserts or
overwrites the entry for `id`; may fail with a `StorageError`, in which
case nothing is written.  Modelled from the spec. -/
def update_dialogue {D : Type} (s : Storage D) (id : ConversationId)
    (d : D) : Except StorageError (Storage D) :=
  if s.failUpdate then Except.error StorageError.backend
  else Except.ok
    { s with entries := fun j => if j = id then some d else s.entries j }

/-- `remove_dialogue(id) -> Result<(), StorageError>`: deletes the entry;
removing an absent entry is a no-op, not an error.  Modelled from the
spec. -/
def remove_dialogue {D : Type} (s : Storage D) (id : ConversationId) :
    Except StorageError (Storage D) :=
  if s.failRemove then Except.error StorageError.backend
  else Except.ok
    { s with entries := fun j => if j = id then none else s.entries j }

/-- The dispatch failure reported to the caller for a single event: a
storage failure or a handler failure.  Modelled from the spec: both error
kinds are surfaced per-event. -/
inductive DispatchError : Type
  | storage (e : StorageError) : DispatchError
  | handler (e : RequestError) : DispatchError
deriving DecidableEq, Repr

/-- A dialogue handler: receives the event and the current dialogue state
and yields a `TransitionOut` verdict, following `mod.rs` component 3 and
line 120. -/
abbrev Handler (D : Type) : Type := Event → D → TransitionOut D

/-- Step 4 of the dispatch contract: apply the handler's verdict to the
storage.  Modelled from the spec and `mod.rs` step 2: `Next(new_state)`
causes `update_dialogue(id, new_state)`, `Exit` causes
`remove_dialogue(id)`; a handler failure leaves the storage untouched and
a `StorageError` leaves the pre-failure storage intact. -/
def applyVerdict {D : Type} (s : Storage D) (id : ConversationId)
    (verdict : TransitionOut D) : Storage D × Option DispatchError :=
  match verdict with
  | Except.error e => (s, some (DispatchError.handler e))
  | Except.ok (DialogueStage.Next d) =>
    match update_dialogue s id d with
    | Except.error e => (s, some (DispatchError.storage e))
    | Except.ok s' => (s', none)
  | Except.ok DialogueStage.Exit =>
    match remove_dialogue s id with
    | Except.error e => (s, some (DispatchError.storage e))
    | Except.ok s' => (s', none)

/-- `DialogueDispatcher.dispatch(event)`.  Modelled from the spec and the
`mod.rs` module documentation: extract the conversation id (dropping the
event silently if it has none), resolve the current state with
`get_dialogue` substituting `D::default()` when absent, invoke the
handler, and apply the verdict; any `StorageError` or handler failure is
surfaced for this single event with the storage left unchanged. -/
def dispatch {D : Type} [Inhabited D] (handler : Handler D)
    (s : Storage D) (ev : Event) : Storage D × Option DispatchError :=
  match ev.chat_id with
  | none => (s, none)
  | some id =>
    match get_dialogue s id with
    | Except.error e => (s, some (DispatchError.storage e))
    | Except.ok cur => applyVerdict s id (handler ev (cur.getD default))

/-- The storage reached after dispatching a list of events in order.
Modelled from the spec: the dispatcher remains usable after any per-event
failure, so the fold continues with the returned storage. -/
def runFrom {D : Type} [Inhabited D] (handler : Handler D) :
    Storage D → List Event → Storage D
  | s, [] => s
  | s, ev :: evs => runFrom handler (dispatch handler s ev).1 evs

/-- Whether a verdict is a `Next` verdict. -/
def isNext {D : Type} : TransitionOut D → Bool
  | Except.ok (DialogueStage.Next _) => true
  | _ => false

/-- Whether, along a run of events from a given storage, some dispatch
step addressed `id` and obtained a `Next` verdict from the handler. -/
def receivedNext {D : Type} [Inhabited D] (handler : Handler D) :
    Storage D → List Event → ConversationId → Bool
  | _, [], _ => false
  | s, ev :: evs, id =>
    (decide (ev.chat_id = some id) && !s.failGet &&
      isNext (handler ev (((s.entries id).getD default))))
    || receivedNext handler (dispatch handler s ev).1 evs id

/-! The four states of the `up!` doc example (`mod.rs` lines 76-101) and
the `.up` methods the macro invocation on lines 92-96 expands to
(`impl From { pub fn up(self, field: T) -> To { To { rest: self, field } } }`,
macro body at lines 104-114). -/

/-- The first state of the `up!` doc example. -/
structure StartState : Type

/-- The second state of the `up!` doc example, holding the previous one. -/
structure ReceiveWordState : Type where
  rest : StartState

/-- The third state of the `up!` doc example, adding a `word` field. -/
structure ReceiveNumberState : Type where
  rest : ReceiveWordState
  word : String

/-- The final state of the `up!` doc example, adding a `number` field. -/
structure ExitState : Type where
  rest : ReceiveNumberState
  number : Int

/-- The `.up` method generated for `StartState -> ReceiveWordState`. -/
def StartState.up (self : StartState) : ReceiveWordState :=
  { rest := self }

/-- The `.up` method generated for
`ReceiveWordState + [word: String] -> ReceiveNumberState`. -/
def ReceiveWordState.up (self : ReceiveWordState) (word : String) :
    ReceiveNumberState :=
  { rest := self, word := word }

/-- The `.up` method generated for
`ReceiveNumberState + [number: i32] -> ExitState`. -/
def ReceiveNumberState.up (self : ReceiveNumberState) (number : Int) :
    ExitState :=
  { rest := self, number := number }

/-! Concrete fixtures used by the witnesses. -/

/-- A handler that continues the dialogue with the successor state. -/
def sampleHandlerNext : Handler Nat :=
  fun _ st => Except.ok (DialogueStage.Next (st + 1))

/-- A handler that always terminates the dialogue. -/
def sampleHandlerExit : Handler Nat :=
  fun _ _ => Except.ok DialogueStage.Exit

/-- A handler that always fails with a request error. -/
def sampleHandlerFail : Handler Nat :=
  fun _ _ => Except.error RequestError.apiError

/-- An event belonging to conversation 7. -/
def sampleEvent : Event := { chat_id := some 7 }

/-- An event from which no conversation id can be extracted. -/
def sampleNoIdEvent : Event := { chat_id := none }

/-- A healthy storage holding the state `5` for conversation 7. -/
def sampleStorage5 : Storage Nat :=
  { entries := fun j => if j = 7 then some 5 else none,
    failGet := false, failUpdate := false, failRemove := false }

/-- The storage of `sampleStorage5` with a backend that fails every
`update_dialogue` call. -/
def sampleStorage5FailUpd : Storage Nat :=
  { entries := fun j => if j = 7 then some 5 else none,
    failGet := false, failUpdate := true, failRemove := false }

/-- C1: with the conversation id extracted and the current state read, a
`Next(new_state)` verdict makes `dispatch` commit exactly the result of
`update_dialogue(id, new_state)`, and an `Exit` verdict commit exactly the
result of `remove_dialogue(id)`, in both cases reporting success. -/
theorem C1_verdict_application {D : Type} [Inhabited D] (handler : Handler D)
    (s : Storage D) (ev : Event) (id : ConversationId)
    (hid : ev.chat_id = some id) (hget : s.failGet = false) :
    (∀ (d : D) (s' : Storage D),
      handler ev ((s.entries id).getD default) =
        Except.ok (DialogueStage.Next d) →
      update_dialogue s id d = Except.ok s' →
      dispatch handler s ev = (s', none))
    ∧ (∀ s' : Storage D,
      handler ev ((s.entries id).getD default) = Except.ok DialogueStage.Exit →
      remove_dialogue s id = Except.ok s' →
      dispatch handler s ev = (s', none)) := by
  constructor
  · intro d s' hh hu
    simp [dispatch, hid, get_dialogue, hget, applyVerdict, hh, hu]
  · intro s' hh hr
    simp [dispatch, hid, get_dialogue, hget, applyVerdict, hh, hr]

/-- Witness for C1 at conversation 7 on the empty storage: the `Next 1`
verdict of `sampleHandlerNext` stores `1` under id 7. -/
theorem C1_verdict_application_witness :
    dispatch sampleHandlerNext (Storage.empty Nat) sampleEvent =
      ({ Storage.empty Nat with
          entries := fun j => if j = 7 then some 1 else none }, none) :=
  (C1_verdict_application sampleHandlerNext (Storage.empty Nat) sampleEvent 7
    rfl rfl).1 1 _ rfl rfl

/-- C2: with the conversation id extracted and the storage read
successfully, `dispatch` invokes the handler with the default value of `D`
when the entry for the id is absent, and with the stored state when the
entry is present. -/
theorem C2_default_state_resolution {D : Type} [Inhabited D]
    (handler : Handler D) (s : Storage D) (ev : Event) (id : ConversationId)
    (hid : ev.chat_id = some id) (hget : s.failGet = false) :
    (s.entries id = none →
      dispatch handler s ev = applyVerdict s id (handler ev default))
    ∧ (∀ d : D, s.entries id = some d →
      dispatch handler s ev = applyVerdict s id (handler ev d)) := by
  constructor
  · intro habs
    simp [dispatch, hid, get_dialogue, hget, habs]
  · intro d hpres
    simp [dispatch, hid, get_dialogue, hget, hpres]

/-- Witness for C2 at conversation 7 on the empty storage: the handler is
applied to `default`. -/
theorem C2_default_state_resolution_witness :
    dispatch sampleHandlerNext (Storage.empty Nat) sampleEvent =
      applyVerdict (Storage.empty Nat) 7 (sampleHandlerNext sampleEvent
        default) :=
  (C2_default_state_resolution sampleHandlerNext (Storage.empty Nat)
    sampleEvent 7 rfl rfl).1 rfl

/-- C7: when no conversation id can be extracted from the event,
`dispatch` returns the storage completely unchanged and reports no error:
the event is dropped as a silent no-op without invoking the handler. -/
theorem C7_extraction_skip {D : Type} [Inhabited D] (handler : Handler D)
    (s : Storage D) (ev : Event) (hid : ev.chat_id = none) :
    dispatch handler s ev = (s, none) := by
  simp [dispatch, hid]

/-- Witness for C7: an id-less event leaves the empty storage untouched. -/
theorem C7_extraction_skip_witness :
    dispatch sampleHandlerNext (Storage.empty Nat) sampleNoIdEvent =
      (Storage.empty Nat, none) :=
  C7_extraction_skip sampleHandlerNext (Storage.empty Nat) sampleNoIdEvent rfl

/-- C8: when the handler fails instead of returning a verdict, `dispatch`
surfaces the failure for that event and returns the storage unchanged:
neither `update_dialogue` nor `remove_dialogue` has run. -/
theorem C8_handler_failure {D : Type} [Inhabited D] (handler : Handler D)
    (s : Storage D) (ev : Event) (id : ConversationId) (e : RequestError)
    (hid : ev.chat_id = some id) (hget : s.failGet = false)
    (hh : handler ev ((s.entries id).getD default) = Except.error e) :
    dispatch handler s ev = (s, some (DispatchError.handler e)) := by
  simp [dispatch, hid, get_dialogue, hget, applyVerdict, hh]

/-- Witness for C8: the always-failing handler leaves the empty storage
unchanged and reports its error. -/
theorem C8_handler_failure_witness :
    dispatch sampleHandlerFail (Storage.empty Nat) sampleEvent =
      (Storage.empty Nat, some (DispatchError.handler
        RequestError.apiError)) :=
  C8_handler_failure sampleHandlerFail (Storage.empty Nat) sampleEvent 7
    RequestError.apiError rfl rfl rfl

/-- C4: on a storage that has never seen conversation `id`,
`get_dialogue(id)` returns absent, and after dispatching an event whose
verdict is `Next d` for `id`, a subsequent `get_dialogue(id)` returns
exactly `d`. -/
theorem C4_dispatch_then_read {D : Type} [Inhabited D] (handler : Handler D)
    (ev : Event) (id : ConversationId) (d : D)
    (hid : ev.chat_id = some id)
    (hh : handler ev default = Except.ok (DialogueStage.Next d)) :
    get_dialogue (Storage.empty D) id = Except.ok none
    ∧ get_dialogue (dispatch handler (Storage.empty D) ev).1 id =
        Except.ok (some d) := by
  refine ⟨rfl, ?_⟩
  simp [dispatch, hid, Storage.empty, get_dialogue, applyVerdict, hh,
    update_dialogue]

/-- Witness for C4 at conversation 7: after the `Next 1` verdict,
`get_dialogue 7` yields `1`. -/
theorem C4_dispatch_then_read_witness :
    get_dialogue (Storage.empty Nat) 7 = Except.ok none
    ∧ get_dialogue (dispatch sampleHandlerNext (Storage.empty Nat)
        sampleEvent).1 7 = Except.ok (some 1) :=
  C4_dispatch_then_read sampleHandlerNext sampleEvent 7 1 rfl rfl

/-- C5: whatever states the storage holds, dispatching an event whose
verdict is `Exit` for `id` makes `get_dialogue(id)` return absent without
a dispatch error, and dispatching `Exit` again is a no-op: the entry stays
absent, no error is reported, and no entry of the storage changes. -/
theorem C5_exit_then_exit {D : Type} [Inhabited D] (handler : Handler D)
    (s : Storage D) (ev : Event) (id : ConversationId)
    (hid : ev.chat_id = some id) (hget : s.failGet = false)
    (hrem : s.failRemove = false)
    (hh : ∀ st : D, handler ev st = Except.ok DialogueStage.Exit) :
    get_dialogue (dispatch handler s ev).1 id = Except.ok none
    ∧ (dispatch handler s ev).2 = none
    ∧ get_dialogue (dispatch handler (dispatch handler s ev).1 ev).1 id =
        Except.ok none
    ∧ (dispatch handler (dispatch handler s ev).1 ev).2 = none
    ∧ ∀ j : ConversationId,
        (dispatch handler (dispatch handler s ev).1 ev).1.entries j =
          (dispatch handler s ev).1.entries j := by
  have h1 : dispatch handler s ev =
      ({ s with entries := fun j => if j = id then none else s.entries j },
        none) := by
    simp [dispatch, hid, get_dialogue, hget, applyVerdict, hh,
      remove_dialogue, hrem]
  have h2 : dispatch handler (dispatch handler s ev).1 ev =
      ({ s with entries := fun j => if j = id then none else s.entries j },
        none) := by
    rw [h1]
    simp [dispatch, hid, get_dialogue, hget, applyVerdict, hh,
      remove_dialogue, hrem]
    funext j
    by_cases hj : j = id <;> simp [hj]
  refine ⟨?_, ?_, ?_, ?_, ?_⟩
  · rw [h1]; simp [get_dialogue, hget]
  · rw [h1]
  · rw [h2]; simp [get_dialogue, hget]
  · rw [h2]
  · intro j; rw [h2, h1]

/-- Witness for C5 on the storage holding `5` at conversation 7: two
`Exit` dispatches leave the entry absent with no error. -/
theorem C5_exit_then_exit_witness :
    get_dialogue (dispatch sampleHandlerExit sampleStorage5 sampleEvent).1 7 =
      Except.ok none
    ∧ (dispatch sampleHandlerExit sampleStorage5 sampleEvent).2 = none :=
  ⟨(C5_exit_then_exit sampleHandlerExit sampleStorage5 sampleEvent 7
      rfl rfl rfl (fun _ => rfl)).1,
   (C5_exit_then_exit sampleHandlerExit sampleStorage5 sampleEvent 7
      rfl rfl rfl (fun _ => rfl)).2.1⟩

/-- C6: when the backend is forced to fail on `update_dialogue`, a
dispatch whose verdict is `Next d` reports the `StorageError` to the
caller and returns the storage exactly as it was: the pre-failure value of
every entry is preserved, nothing is partially written. -/
theorem C6_update_failure_atomic {D : Type} [Inhabited D]
    (handler : Handler D) (s : Storage D) (ev : Event)
    (id : ConversationId) (d : D)
    (hid : ev.chat_id = some id) (hget : s.failGet = false)
    (hfail : s.failUpdate = true)
    (hh : handler ev ((s.entries id).getD default) =
      Except.ok (DialogueStage.Next d)) :
    dispatch handler s ev = (s, some (DispatchError.storage
      StorageError.backend))
    ∧ get_dialogue (dispatch handler s ev).1 id = get_dialogue s id := by
  have h1 : dispatch handler s ev =
      (s, some (DispatchError.storage StorageError.backend)) := by
    simp [dispatch, hid, get_dialogue, hget, applyVerdict, hh,
      update_dialogue, hfail]
  exact ⟨h1, by rw [h1]⟩

/-- Witness for C6 on a storage holding `5` at conversation 7 with a
failing update backend. -/
theorem C6_update_failure_atomic_witness :
    dispatch sampleHandlerNext sampleStorage5FailUpd sampleEvent =
      (sampleStorage5FailUpd,
        some (DispatchError.storage StorageError.backend)) :=
  (C6_update_failure_atomic sampleHandlerNext sampleStorage5FailUpd
    sampleEvent 7 6 rfl rfl rfl rfl).1

/-- Applying a verdict for conversation `j` never changes the entry of a
different conversation `i`. -/
theorem applyVerdict_frame {D : Type} (s : Storage D) (j i : ConversationId)
    (v : TransitionOut D) (h : i ≠ j) :
    (applyVerdict s j v).1.entries i = s.entries i := by
  match v with
  | Except.error e => rfl
  | Except.ok (DialogueStage.Next d) =>
    simp only [applyVerdict, update_dialogue]
    by_cases hf : s.failUpdate <;> simp [hf, h]
  | Except.ok DialogueStage.Exit =>
    simp only [applyVerdict, remove_dialogue]
    by_cases hf : s.failRemove <;> simp [hf, h]

/-- Applying a verdict that is not `Next` keeps an absent entry absent. -/
theorem applyVerdict_not_next {D : Type} (s : Storage D)
    (id : ConversationId) (v : TransitionOut D)
    (habs : s.entries id = none) (h : isNext v = false) :
    (applyVerdict s id v).1.entries id = none := by
  match v with
  | Except.error e => exact habs
  | Except.ok (DialogueStage.Next d) => simp [isNext] at h
  | Except.ok DialogueStage.Exit =>
    simp only [applyVerdict, remove_dialogue]
    by_cases hf : s.failRemove <;> simp [hf, habs]

/-- A dispatch step that does not obtain a `Next` verdict for `id` keeps
an absent entry for `id` absent. -/
theorem dispatch_preserves_absent {D : Type} [Inhabited D]
    (handler : Handler D) (s : Storage D) (ev : Event)
    (id : ConversationId) (habs : s.entries id = none)
    (h : (decide (ev.chat_id = some id) && !s.failGet &&
      isNext (handler ev ((s.entries id).getD default))) = false) :
    (dispatch handler s ev).1.entries id = none := by
  match hev : ev.chat_id with
  | none => simpa [dispatch, hev] using habs
  | some j =>
    cases hg : s.failGet with
    | true => simpa [dispatch, hev, get_dialogue, hg] using habs
    | false =>
      by_cases hj : j = id
      · subst hj
        rw [hev, hg] at h
        simp at h
        simp only [dispatch, hev]
        rw [show get_dialogue s j = Except.ok (s.entries j) by
          simp [get_dialogue, hg]]
        exact applyVerdict_not_next _ _ _ habs h
      · simp only [dispatch, hev]
        rw [show get_dialogue s j = Except.ok (s.entries j) by
          simp [get_dialogue, hg]]
        rw [applyVerdict_frame _ _ _ _ (fun hc => hj hc.symm)]
        exact habs

/-- C3: the per-conversation storage entry follows the verdict transition
relation — a `Next d` verdict leaves the entry `Present d` whether it was
absent or present before, and an `Exit` verdict leaves it `Absent` whether
it was present or absent before — and consequently, starting from any
storage where the entry for `id` is absent, after any run of events in
which no dispatch step obtained a `Next` verdict for `id`, the entry for
`id` is still absent: no entry exists without at least one prior `Next`
verdict. -/
theorem C3_transition_relation {D : Type} [Inhabited D]
    (handler : Handler D) :
    (∀ (s : Storage D) (ev : Event) (id : ConversationId) (d : D),
      ev.chat_id = some id → s.failGet = false → s.failUpdate = false →
      handler ev ((s.entries id).getD default) =
        Except.ok (DialogueStage.Next d) →
      (dispatch handler s ev).1.entries id = some d)
    ∧ (∀ (s : Storage D) (ev : Event) (id : ConversationId),
      ev.chat_id = some id → s.failGet = false → s.failRemove = false →
      handler ev ((s.entries id).getD default) =
        Except.ok DialogueStage.Exit →
      (dispatch handler s ev).1.entries id = none)
    ∧ (∀ (evs : List Event) (s : Storage D) (id : ConversationId),
      s.entries id = none → receivedNext handler s evs id = false →
      (runFrom handler s evs).entries id = none) := by
  refine ⟨?_, ?_, ?_⟩
  · intro s ev id d hid hget hupd hh
    simp [dispatch, hid, get_dialogue, hget, applyVerdict, hh,
      update_dialogue, hupd]
  · intro s ev id hid hget hrem hh
    simp [dispatch, hid, get_dialogue, hget, applyVerdict, hh,
      remove_dialogue, hrem]
  · intro evs
    induction evs with
    | nil => intro s id habs _; exact habs
    | cons ev evs ih =>
      intro s id habs hrec
      rw [receivedNext, Bool.or_eq_false_iff] at hrec
      rw [runFrom]
      exact ih _ _ (dispatch_preserves_absent handler s ev id habs hrec.1)
        hrec.2

/-- Witness for C3 at conversation 7: a `Next` step stores the new state,
an `Exit` step erases it, and a run with only `Exit` verdicts creates no
entry. -/
theorem C3_transition_relation_witness :
    (dispatch sampleHandlerNext (Storage.empty Nat) sampleEvent).1.entries 7 =
      some 1
    ∧ (dispatch sampleHandlerExit sampleStorage5 sampleEvent).1.entries 7 =
        none
    ∧ (runFrom sampleHandlerExit (Storage.empty Nat)
        [sampleEvent, sampleEvent]).entries 7 = none :=
  ⟨(C3_transition_relation sampleHandlerNext).1 (Storage.empty Nat)
      sampleEvent 7 1 rfl rfl rfl rfl,
   (C3_transition_relation sampleHandlerExit).2.1 sampleStorage5
      sampleEvent 7 rfl rfl rfl rfl,
   (C3_transition_relation sampleHandlerExit).2.2 [sampleEvent, sampleEvent]
      (Storage.empty Nat) 7 rfl (by decide)⟩

/-- C9 counterexample: it is not the case that every handler output is a
`DialogueStage` verdict directly — `TransitionOut` wraps the verdict in
`ResponseResult`, and the error case of that wrapper equals no `Ok`
verdict. -/
theorem C9_no_wrapper_refuted :
    ¬ ∀ v : TransitionOut Nat,
      ∃ stage : DialogueStage Nat, v = Except.ok stage := by
  intro h
  rcases h (Except.error RequestError.apiError) with ⟨stage, hstage⟩
  simp at hstage

/-- C9 amended: the handler's return type is
`TransitionOut<D> = ResponseResult<DialogueStage<D>>`, so every handler
invocation yields either `Ok` of a `DialogueStage<D>` verdict or `Err` of
a `RequestError` — a `Result` wrapper around the verdict. -/
theorem C9_transition_out_shape (D : Type) (v : TransitionOut D) :
    (∃ stage : DialogueStage D, v = Except.ok stage)
    ∨ (∃ e : RequestError, v = Except.error e) := by
  match v with
  | Except.ok stage => exact Or.inl ⟨stage, rfl⟩
  | Except.error e => exact Or.inr ⟨e, rfl⟩

/-- C10: each `.up` method generated by the `up!` doc-example invocation
is a pure constructor — it returns exactly `To { rest: self, field }`, so
the receiver is stored unchanged in `rest` and the added field equals the
argument. -/
theorem C10_up_pure_constructor (s0 : StartState) (s1 : ReceiveWordState)
    (s2 : ReceiveNumberState) (w : String) (n : Int) :
    StartState.up s0 = { rest := s0 }
    ∧ ReceiveWordState.up s1 w = { rest := s1, word := w }
    ∧ ReceiveNumberState.up s2 n = { rest := s2, number := n }
    ∧ (StartState.up s0).rest = s0
    ∧ (ReceiveWordState.up s1 w).rest = s1
    ∧ (ReceiveWordState.up s1 w).word = w
    ∧ (ReceiveNumberState.up s2 n).rest = s2
    ∧ (ReceiveNumberState.up s2 n).number = n :=
  ⟨rfl, rfl, rfl, rfl, rfl, rfl, rfl, rfl⟩

end Teloxide
